import Mathlib

/-!
Shallow embedding of `src/develop/imageop_gui.c` (darktable): the
parameter-bound widget factory (slider / combobox / toggle binders) and the
generic change-event callbacks, together with proofs about the claims of the
accompanying specification.

Modelling conventions:
* C `float` values are modelled as exact rationals (`ℚ`); the comparisons in
  the source (`!=`, `>=`, `<`) are exact comparisons, which the rational model
  mirrors.  The float-typed library calls `log10f`/`floorf`/`powf` only ever
  feed a floor or a comparison, so their exact-real meaning is captured by
  integer-log arithmetic over `ℚ` (see `floorLog10AddTenth`).
* C `int` and `gboolean` (an `int` typedef) are modelled as `ℤ`.
* Side effects on collaborators (the custom `gui_changed` hook, the
  color-picker reset, the history commit) are modelled as an explicit effect
  list, in emission order.
* `self` resolution in `process_changed_value` (`DT_BAUHAUS_WIDGET(widget)->module`
  when `self == NULL`) is abstracted: the callbacks receive the resolved
  module's `gui_changed`-hook presence as a boolean, and the widget as an
  opaque identifier.
-/

/-- A typed cell of the parameter block: a C `float` field (exact value), an
`int` field, or a `gboolean` field. -/
inductive PVal where
  | float (q : ℚ)
  | int (v : ℤ)
  | bool (b : Bool)
  deriving DecidableEq

/-- One observable side effect on a collaborator, in the order the change
handler emits it.  `guiChanged w prev` is the invocation of the module's
custom change hook with the control `w` and the previous value `prev`;
the other two are `dt_iop_color_picker_reset(self, TRUE)` and
`dt_dev_add_history_item(darktable.develop, self, TRUE)`. -/
inductive Effect where
  | guiChanged (widget : Nat) (prev : PVal)
  | colorPickerReset
  | addHistoryItem
  deriving DecidableEq

/-- Embeds `process_changed_value` (imageop_gui.c:45-54): invoke the module's custom
change hook when one is registered (passing the control and the previous
value), then reset the color picker, then add a history item.  The returned
list is the emitted effects in order. -/
def process_changed_value (gui_changed : Bool) (widget : Nat) (prev : PVal) :
    List Effect :=
  (if gui_changed then [Effect.guiChanged widget prev] else [])
    ++ [Effect.colorPickerReset, Effect.addHistoryItem]

/-- Embeds `generic_slider_float_callback` (imageop_gui.c:56-64).  Arguments: the
global reset flag `darktable.gui->reset`, the resolved module's hook
presence, the widget id, the bound field's current value, and the value read
from the slider.  Returns the field's new value and the emitted effects. -/
def generic_slider_float_callback (reset gui_changed : Bool) (widget : Nat)
    (field : ℚ) (sliderValue : ℚ) : ℚ × List Effect :=
  if reset then (field, [])
  else
    let previous := field
    let field := sliderValue
    if field ≠ previous then
      (field, process_changed_value gui_changed widget (PVal.float previous))
    else (field, [])

/-- Embeds `generic_slider_int_callback` (imageop_gui.c:66-74). -/
def generic_slider_int_callback (reset gui_changed : Bool) (widget : Nat)
    (field : ℤ) (sliderValue : ℤ) : ℤ × List Effect :=
  if reset then (field, [])
  else
    let previous := field
    let field := sliderValue
    if field ≠ previous then
      (field, process_changed_value gui_changed widget (PVal.int previous))
    else (field, [])

/-- Embeds `generic_combobox_enum_callback` (imageop_gui.c:76-89): the new value is
the combobox entry's auxiliary data when present
(`dt_bauhaus_combobox_get_data`), else the plain selection index
(`dt_bauhaus_combobox_get`). -/
def generic_combobox_enum_callback (reset gui_changed : Bool) (widget : Nat)
    (field : ℤ) (combo_data : Option ℤ) (comboIndex : ℤ) : ℤ × List Effect :=
  if reset then (field, [])
  else
    let previous := field
    let field := match combo_data with
      | some d => d
      | none => comboIndex
    if field ≠ previous then
      (field, process_changed_value gui_changed widget (PVal.int previous))
    else (field, [])

/-- Embeds `generic_combobox_bool_callback` (imageop_gui.c:91-99): the `gboolean`
field (an `int`) receives the selection index. -/
def generic_combobox_bool_callback (reset gui_changed : Bool) (widget : Nat)
    (field : ℤ) (comboIndex : ℤ) : ℤ × List Effect :=
  if reset then (field, [])
  else
    let previous := field
    let field := comboIndex
    if field ≠ previous then
      (field, process_changed_value gui_changed widget (PVal.int previous))
    else (field, [])

/-- Embeds `generic_toggle_callback` (imageop_gui.c:101-112): the `gboolean` field
receives `gtk_toggle_button_get_active` (1 when active, 0 otherwise); the
module is taken from the heap-allocated `dt_module_param_t` pair. -/
def generic_toggle_callback (reset gui_changed : Bool) (widget : Nat)
    (field : ℤ) (active : Bool) : ℤ × List Effect :=
  if reset then (field, [])
  else
    let previous := field
    let field : ℤ := if active then 1 else 0
    if field ≠ previous then
      (field, process_changed_value gui_changed widget (PVal.int previous))
    else (field, [])

/-!
## Slider step / digit derivation (imageop_gui.c:124-147)

The source computes, for a float field with range `[min,max]`:
```
top = fminf(max-min, fmaxf(fabsf(min), fabsf(max)))
if (top >= 100) step = 1
else { step = top/100;
       fdigits = floorf(log10f(step) + .1);
       step = powf(10, fdigits);
       if (log10f(top/100) - fdigits > .5) step *= 5;
       if (fdigits < -2) digits = -fdigits; }
```
In the exact-real reading of this float code, `log10f`/`floorf`/`powf` only
occur inside a floor and two comparisons, all of which are equivalent to
rational inequalities:
* `⌊log₁₀ q + 1/10⌋ = (⌊log₁₀ (q^10)⌋ + 1).fdiv 10` (floor division), and
  `⌊log₁₀ r⌋ = Int.log 10 r` for rational `r > 0`;
* `log₁₀ q - e > 1/2  ↔  q > 10^(e+1/2)  ↔  q² > 10^(2e+1)`.
Both are proved against `Real.logb` below
(`floorLog10AddTenth_eq_floor_logb`, `log10FracGtHalf_iff_logb`).
-/

/-- Computes `⌊log₁₀ q + 1/10⌋`, the source code floorf(log10f(q) + .1),
exactly over `ℚ`. -/
def floorLog10AddTenth (q : ℚ) : ℤ :=
  (Int.log 10 (q ^ 10) + 1).fdiv 10

/-- Decides `log₁₀ q - e > 1/2`, the source's `log10step - fdigits > .5`,
via the equivalent rational inequality `q² > 10^(2e+1)`. -/
def log10FracGtHalf (q : ℚ) (e : ℤ) : Bool :=
  decide ((10 : ℚ) ^ (2 * e + 1) < q ^ 2)

/-- C `fminf` on exact values. -/
def rmin (a b : ℚ) : ℚ := if a ≤ b then a else b

/-- C `fmaxf` on exact values. -/
def rmax (a b : ℚ) : ℚ := if b ≤ a then a else b

/-- C `fabsf` on exact values. -/
def rabs (a : ℚ) : ℚ := if a < 0 then -a else a

/-- The source's `top = fminf(max-min, fmaxf(fabsf(min), fabsf(max)))`. -/
def slider_top (mn mx : ℚ) : ℚ :=
  rmin (mx - mn) (rmax (rabs mn) (rabs mx))

/-- The step size and digit count the float branch of
`dt_bauhaus_slider_from_params` derives (imageop_gui.c:129-147). -/
def derive_step_digits (mn mx : ℚ) : ℚ × ℤ :=
  let top := slider_top mn mx
  if 100 ≤ top then (1, 2)
  else
    let step := top / 100
    let fdigits := floorLog10AddTenth step
    let step2 : ℚ := (10 : ℚ) ^ fdigits
    let step3 := if log10FracGtHalf step fdigits then step2 * 5 else step2
    (step3, if fdigits < -2 then -fdigits else 2)

/-- Modelled from the spec: the step/digits rule exactly as the specification
words it — `e = ⌊log₁₀(top/100)⌋` (no `+0.1` inside the floor), step `10^e`,
multiplied by 5 when the fractional part of `log₁₀(top/100)` exceeds `1/2`
(equivalently `(top/100)² > 10^(2e+1)`), digit count 2 unless `e < -2`, in
which case `-e`; step 1 when `top ≥ 100`.  Stated for comparison with
`derive_step_digits`, which embeds the source. -/
def spec_step_digits (mn mx : ℚ) : ℚ × ℤ :=
  let top := slider_top mn mx
  if 100 ≤ top then (1, 2)
  else
    let q := top / 100
    let e := Int.log 10 q
    let step := if log10FracGtHalf q e then (10 : ℚ) ^ e * 5 else (10 : ℚ) ^ e
    (step, if e < -2 then -e else 2)

/-!
## IEEE-754 binary32 bit reinterpretation

The int branch of `dt_bauhaus_slider_from_params` reads the field's default
through a float-typed dereference (`*(float*)self->so->get_p(p, param)`,
imageop_gui.c:168): the `int` storage bits are reinterpreted as a binary32
float, which is then converted back to `int` (C truncation toward zero).
-/

/-- The 32-bit two's-complement bit pattern of an `int`. -/
def intToBits32 (v : ℤ) : ℕ :=
  (v % (2 ^ 32)).toNat

/-- Decode a binary32 bit pattern to its exact rational value.  `none` for
the exponent-255 patterns (infinities and NaNs), whose value is not a
rational. -/
def float32BitsToRat (n : ℕ) : Option ℚ :=
  let sign : ℕ := n / 2 ^ 31
  let expBits : ℕ := n / 2 ^ 23 % 2 ^ 8
  let mant : ℕ := n % 2 ^ 23
  if expBits = 255 then none
  else
    let mag : ℚ :=
      if expBits = 0 then (mant : ℚ) * (2 : ℚ) ^ (-149 : ℤ)
      else ((2 ^ 23 + mant : ℕ) : ℚ) * (2 : ℚ) ^ ((expBits : ℤ) - 150)
    some (if sign = 1 then -mag else mag)

/-- C float-to-int conversion: truncation toward zero. -/
def ctrunc (q : ℚ) : ℤ :=
  if 0 ≤ q then ⌊q⌋ else ⌈q⌉

/-- Reading a parameter cell through a `float*` dereference.  A float cell
yields its value; an `int` or `gboolean` cell yields its storage bits
reinterpreted as a binary32 float (`none` when the bits decode to an
infinity or NaN). -/
def PVal.floatStar : PVal → Option ℚ
  | PVal.float q => some q
  | PVal.int v => float32BitsToRat (intToBits32 v)
  | PVal.bool b => float32BitsToRat (intToBits32 (if b then 1 else 0))

/-!
## The data model of the binders

`dt_introspection_field_t` is a tagged union: `header.type` selects among
`Float`/`Int`/`UInt`/`Bool`/`Enum` (other introspection types exist and are
unsupported by this file's binders); the union member carries the range or
the enum table.  An enum table is NULL-name-terminated in C; the Lean list
holds exactly the entries before the sentinel.  Localization (`gettext`/`_`)
is modelled as the identity on strings: the catalog is external state and no
claim depends on the translated text differing from its key.
-/

/-- One `dt_introspection_type_enum_tuple_t` (name, value, description). -/
structure EnumTuple where
  name : String
  value : ℤ
  description : String
  deriving DecidableEq

/-- The payload of a field descriptor, by introspection type tag. -/
inductive FieldSpec where
  | float (Min Max : ℚ)
  | int (Min Max : ℤ)
  | uint (Min Max : ℕ)
  | bool
  | enum (values : List EnumTuple)
  | other
  deriving DecidableEq

/-- A field descriptor (`dt_introspection_field_t`): byte offset of the field
inside the parameter block, the header's description string, and the typed
payload. -/
structure FieldDesc where
  offset : ℕ
  description : String
  spec : FieldSpec
  deriving DecidableEq

/-- Localization of a description string, modelled as the identity. -/
def gettext (s : String) : String := s

/-- Which generic callback a slider's `value-changed` signal is connected to,
and the offset of the bound field (`p + f->header.offset`). -/
inductive SliderHandler where
  | floatCB (offset : ℕ)
  | intCB (offset : ℕ)
  deriving DecidableEq

/-- A bauhaus slider as configured by `dt_bauhaus_slider_from_params`:
the range/step/default/digits passed to
`dt_bauhaus_slider_new_with_range_and_feedback`, the label, the optional
printf format (`dt_bauhaus_slider_set_format`), and the connected handler
(`none` for the placeholder sliders, which get no signal connection). -/
structure SliderW where
  minv : ℚ
  maxv : ℚ
  step : ℚ
  defval : ℚ
  digits : ℤ
  label : String
  format : Option String
  handler : Option SliderHandler
  deriving DecidableEq

/-- One combobox entry: its label and, for entries added through
`dt_bauhaus_combobox_add_full`, the auxiliary integer value the entry
carries (`&iter->value`). -/
structure ComboEntry where
  label : String
  data : Option ℤ
  deriving DecidableEq

/-- Which generic callback a combobox's `value-changed` signal is connected
to, with the bound field's offset. -/
inductive ComboHandler where
  | boolCB (offset : ℕ)
  | enumCB (offset : ℕ)
  deriving DecidableEq

/-- A bauhaus combobox as configured by `dt_bauhaus_combobox_from_params`. -/
structure ComboboxW where
  label : String
  entries : List ComboEntry
  handler : Option ComboHandler
  deriving DecidableEq

/-- A check button as configured by `dt_bauhaus_toggle_from_params`: its
label and, when a field is bound, the offset stored in the heap-allocated
`dt_module_param_t` pair whose `toggled` signal runs
`generic_toggle_callback`. -/
structure ToggleW where
  label : String
  handler : Option ℕ
  deriving DecidableEq

/-- A control packed into the module's UI container. -/
inductive PackedW where
  | slider (s : SliderW)
  | combo (c : ComboboxW)
  | toggle (t : ToggleW)
  deriving DecidableEq

/-- The slice of `dt_iop_module_t` this file touches: the introspection
lookup `self->so->get_f`, the parameter accessor `self->so->get_p` composed
with the parameter block `self->params` (returning the typed cell at a
parameter's location), whether a custom `gui_changed` hook is registered,
and the lazily created UI container `self->widget` with its packed
children. -/
structure IopModule where
  get_f : String → Option FieldDesc
  get_p : String → PVal
  gui_changed : Bool
  widget : Option (List PackedW)

/-- The result of one binder call: the returned control, the module
afterwards, and the collaborator effects emitted during construction (the
binders call neither `dt_dev_add_history_item` nor
`dt_iop_color_picker_reset`, so this list is built empty — the theorems
record that). -/
structure BindResult (W : Type) where
  widget : W
  module : IopModule
  effects : List Effect

/-- The control `dt_bauhaus_slider_from_params` builds
(imageop_gui.c:119-185), from the introspection lookup and the parameter
accessor.  `none` models the `GtkWidget*` remaining NULL: that happens
exactly when a descriptor exists whose type is neither
`DT_INTROSPECTION_TYPE_FLOAT` nor `DT_INTROSPECTION_TYPE_INT` (the source
then passes the NULL pointer to `dt_bauhaus_widget_set_label`, a null
dereference).  When the lookup fails entirely, a fresh default slider
(`dt_bauhaus_slider_new`) is returned carrying the diagnostic label and no
signal connection; its numeric configuration is the bauhaus default
(range `[0,1]`, step `0.1`, default `0`, 3 digits — the bauhaus library is
outside this slice). -/
def slider_widget_core (get_f : String → Option FieldDesc)
    (get_p : String → PVal) (param : String) : Option SliderW :=
  match get_f param with
  | some f =>
    match f.spec with
    | FieldSpec.float mn mx =>
      let defval : ℚ := ((get_p param).floatStar).getD 0
      let sd := derive_step_digits mn mx
      some { minv := mn, maxv := mx, step := sd.1, defval := defval,
             digits := sd.2,
             label := gettext f.description,
             format := if mn < 0
               then some ("%+.0" ++ toString sd.2 ++ "f") else none,
             handler := some (SliderHandler.floatCB f.offset) }
    | FieldSpec.int mn mx =>
      let defval : ℤ := ctrunc (((get_p param).floatStar).getD 0)
      some { minv := (mn : ℚ), maxv := (mx : ℚ), step := 1,
             defval := (defval : ℚ), digits := 0,
             label := gettext f.description, format := none,
             handler := some (SliderHandler.intCB f.offset) }
    | _ => none
  | none =>
    some { minv := 0, maxv := 1, step := 1/10, defval := 0, digits := 3,
           label := "\x27" ++ param ++ "\x27 is not a float/int/slider parameter",
           format := none, handler := none }

/-- Embeds `dt_bauhaus_slider_from_params` (imageop_gui.c:114-191).  After building
the control it lazily creates the module's container
(`if(!self->widget) self->widget = gtk_box_new(...)`) and packs the control
into it; `gtk_box_pack_start` checks its child argument, so a NULL control
is not appended. -/
def dt_bauhaus_slider_from_params (self : IopModule) (param : String) :
    BindResult (Option SliderW) :=
  let slider := slider_widget_core self.get_f self.get_p param
  { widget := slider,
    module := { self with
      widget := some (self.widget.getD [] ++ (slider.map PackedW.slider).toList) },
    effects := [] }

/-- The control `dt_bauhaus_combobox_from_params` builds
(imageop_gui.c:198-235).  The combobox itself is created unconditionally;
for a `bool` field it gets the two localized choices "no" and "yes" and the
bool callback, for an `enum` field one entry per table tuple (in table
order, each carrying the tuple's value as auxiliary data and its localized
description as label) and the enum callback, for `int`/`uint` fields no
entries and the enum callback, and otherwise the diagnostic label with no
connection. -/
def combobox_widget_core (get_f : String → Option FieldDesc)
    (param : String) : ComboboxW :=
  match get_f param with
  | some f =>
    match f.spec with
    | FieldSpec.bool =>
      { label := gettext f.description,
        entries := [{ label := gettext "no", data := none },
                    { label := gettext "yes", data := none }],
        handler := some (ComboHandler.boolCB f.offset) }
    | FieldSpec.enum values =>
      { label := gettext f.description,
        entries := values.map
          (fun t => { label := gettext t.description, data := some t.value }),
        handler := some (ComboHandler.enumCB f.offset) }
    | FieldSpec.int _ _ =>
      { label := gettext f.description, entries := [],
        handler := some (ComboHandler.enumCB f.offset) }
    | FieldSpec.uint _ _ =>
      { label := gettext f.description, entries := [],
        handler := some (ComboHandler.enumCB f.offset) }
    | _ =>
      { label := "\x27" ++ param ++ "\x27 is not an enum/int/bool/combobox parameter",
        entries := [], handler := none }
  | none =>
    { label := "\x27" ++ param ++ "\x27 is not an enum/int/bool/combobox parameter",
      entries := [], handler := none }

/-- Embeds `dt_bauhaus_combobox_from_params` (imageop_gui.c:193-241), with the same
lazy container creation and packing as the slider binder. -/
def dt_bauhaus_combobox_from_params (self : IopModule) (param : String) :
    BindResult ComboboxW :=
  let combobox := combobox_widget_core self.get_f param
  { widget := combobox,
    module := { self with
      widget := some (self.widget.getD [] ++ [PackedW.combo combobox]) },
    effects := [] }

/-- The control `dt_bauhaus_toggle_from_params` builds
(imageop_gui.c:248-266): a check button bound through a `dt_module_param_t`
pair for a `bool` field, and a diagnostic-labeled unbound check button
otherwise. -/
def toggle_widget_core (get_f : String → Option FieldDesc)
    (param : String) : ToggleW :=
  match get_f param with
  | some f =>
    match f.spec with
    | FieldSpec.bool =>
      { label := gettext f.description, handler := some f.offset }
    | _ =>
      { label := "\x27" ++ param ++ "\x27 is not a bool/togglebutton parameter",
        handler := none }
  | none =>
    { label := "\x27" ++ param ++ "\x27 is not a bool/togglebutton parameter",
      handler := none }

/-- Embeds `dt_bauhaus_toggle_from_params` (imageop_gui.c:243-272), with the same
lazy container creation and packing. -/
def dt_bauhaus_toggle_from_params (self : IopModule) (param : String) :
    BindResult ToggleW :=
  let button := toggle_widget_core self.get_f param
  { widget := button,
    module := { self with
      widget := some (self.widget.getD [] ++ [PackedW.toggle button]) },
    effects := [] }

/-- One call into the binder API, by kind and parameter name. -/
inductive BinderCall where
  | slider (param : String)
  | combo (param : String)
  | toggle (param : String)
  deriving DecidableEq

/-- Run one binder call for its module-state effect. -/
def applyCall (m : IopModule) (c : BinderCall) : IopModule :=
  match c with
  | BinderCall.slider p => (dt_bauhaus_slider_from_params m p).module
  | BinderCall.combo p => (dt_bauhaus_combobox_from_params m p).module
  | BinderCall.toggle p => (dt_bauhaus_toggle_from_params m p).module

/-- Run a sequence of binder calls left to right. -/
def runCalls (m : IopModule) (cs : List BinderCall) : IopModule :=
  cs.foldl applyCall m

/-- The control a binder call packs into the container (`none` when the
slider binder leaves its control NULL). -/
def builtWidget (m : IopModule) : BinderCall → Option PackedW
  | BinderCall.slider p => (slider_widget_core m.get_f m.get_p p).map PackedW.slider
  | BinderCall.combo p => some (PackedW.combo (combobox_widget_core m.get_f p))
  | BinderCall.toggle p => some (PackedW.toggle (toggle_widget_core m.get_f p))

/-!
## A concrete module used as evaluation input by several claims
-/

/-- Float field with range `[0,1]` (the spec's own worked example). -/
def exF01 : FieldDesc := { offset := 0, description := "strength",
                           spec := FieldSpec.float 0 1 }

/-- Float field with range `[0,9]` (`top = 9`). -/
def exF9 : FieldDesc := { offset := 4, description := "radius",
                          spec := FieldSpec.float 0 9 }

/-- Float field with range `[-60,60]` (`max-min = 120` but `top = 60`). -/
def exF60 : FieldDesc := { offset := 8, description := "rotation",
                           spec := FieldSpec.float (-60) 60 }

/-- Int field with range `[0,10]`. -/
def exFInt : FieldDesc := { offset := 12, description := "iterations",
                            spec := FieldSpec.int 0 10 }

/-- Bool field. -/
def exFBool : FieldDesc := { offset := 16, description := "clip",
                             spec := FieldSpec.bool }

/-- Float field with range `[-180,180]` (`top = 180 ≥ 100`, the spec's
other worked example). -/
def exF180 : FieldDesc := { offset := 24, description := "exposure",
                            spec := FieldSpec.float (-180) 180 }

/-- Enum field with a two-entry table whose second value (5) differs from
its display index (1). -/
def exFEnum : FieldDesc :=
  { offset := 20, description := "mode",
    spec := FieldSpec.enum
      [{ name := "MODE_LIN", value := 0, description := "linear" },
       { name := "MODE_LOG", value := 5, description := "logarithmic" }] }

/-- A concrete module: six introspected parameters, current values in the
parameter block (the `iterations` cell holds the int 5), a registered
`gui_changed` hook, and no UI container yet. -/
def exampleModule : IopModule :=
  { get_f := fun s =>
      if s = "strength" then some exF01
      else if s = "radius" then some exF9
      else if s = "rotation" then some exF60
      else if s = "iterations" then some exFInt
      else if s = "clip" then some exFBool
      else if s = "mode" then some exFEnum
      else if s = "exposure" then some exF180
      else none,
    get_p := fun s =>
      if s = "strength" then PVal.float (1 / 2)
      else if s = "radius" then PVal.float 3
      else if s = "rotation" then PVal.float 0
      else if s = "iterations" then PVal.int 5
      else if s = "clip" then PVal.bool false
      else PVal.float 0,
    gui_changed := true,
    widget := none }

/-!
## Claims about the change handlers (C1, C2, C3)
-/

/-- Claim C2: a change event of any of the five kinds arriving while the
global reset state is active mutates no field, invokes no change hook,
issues no color-picker reset and commits no history entry — the field and
all collaborator state are left unchanged. -/
theorem c2_reset_guard (gui_changed : Bool) (w : Nat) (fq vq : ℚ)
    (fi vi fe fb vb ft ci : ℤ) (cd : Option ℤ) (a : Bool) :
    generic_slider_float_callback true gui_changed w fq vq = (fq, [])
    ∧ generic_slider_int_callback true gui_changed w fi vi = (fi, [])
    ∧ generic_combobox_enum_callback true gui_changed w fe cd ci = (fe, [])
    ∧ generic_combobox_bool_callback true gui_changed w fb vb = (fb, [])
    ∧ generic_toggle_callback true gui_changed w ft a = (ft, []) :=
  ⟨rfl, rfl, rfl, rfl, rfl⟩

/-- Claim C3: with the reset state inactive, a change event whose new value
(for the enum combobox: the auxiliary data when present, else the selection
index) equals the field's previous value under exact equality still writes
the new value into the field but emits no hook invocation, no color-picker
reset and no history commit. -/
theorem c3_equal_value_writes_without_commit (gui_changed : Bool) (w : Nat)
    (fq : ℚ) (fi fe fb ft ci : ℤ) (cd : Option ℤ) (a : Bool)
    (hcd : cd.getD ci = fe) (ha : (if a then (1 : ℤ) else 0) = ft) :
    generic_slider_float_callback false gui_changed w fq fq = (fq, [])
    ∧ generic_slider_int_callback false gui_changed w fi fi = (fi, [])
    ∧ generic_combobox_enum_callback false gui_changed w fe cd ci = (fe, [])
    ∧ generic_combobox_bool_callback false gui_changed w fb fb = (fb, [])
    ∧ generic_toggle_callback false gui_changed w ft a = (ft, []) := by
  subst hcd ha
  refine ⟨?_, ?_, ?_, ?_, ?_⟩
  · simp [generic_slider_float_callback]
  · simp [generic_slider_int_callback]
  · cases cd <;> simp [generic_combobox_enum_callback]
  · simp [generic_combobox_bool_callback]
  · cases a <;> simp [generic_toggle_callback]

/-- Claim C3 witness at concrete inputs (enum data present: `some 4`
resolving to the previous value `4`; toggle active with previous value 1). -/
theorem c3_equal_value_writes_without_commit_witness :
    generic_combobox_enum_callback false true 0 4 (some 4) 9 = (4, [])
    ∧ generic_toggle_callback false true 0 1 true = (1, []) := by
  have h := c3_equal_value_writes_without_commit true 0 (1/2) 3 4 0 1 9
    (some 4) true (by decide) (by decide)
  exact ⟨h.2.2.1, h.2.2.2.2⟩

/-- Claim C1 counterexample: the claim orders the two collaborator effects
as "history commit, then color-picker reset"; in the source
(`process_changed_value`, imageop_gui.c:51-53) the color-picker reset is
issued first and the history commit second.  Concrete change event: float
slider, reset inactive, no hook, previous value 0, new value 1. -/
theorem c1_order_counterexample :
    (generic_slider_float_callback false false 0 0 1).2
        = [Effect.colorPickerReset, Effect.addHistoryItem]
    ∧ (generic_slider_float_callback false false 0 0 1).2.indexOf
        Effect.colorPickerReset = 0
    ∧ (generic_slider_float_callback false false 0 0 1).2.indexOf
        Effect.addHistoryItem = 1 := by
  refine ⟨rfl, rfl, rfl⟩

/-- Claim C1 (amended): for every change event of any of the five kinds
whose new value differs from the field's previous value, the handler emits
exactly one color-picker reset and exactly one history commit, the reset
first and the commit second, and both after the module's custom change hook
(when one is registered) has been invoked with the control and the previous
value. -/
theorem c1_amended_changed_effects (gui_changed : Bool) (w : Nat)
    (fq vq : ℚ) (fi vi fe fb vb ft ci : ℤ) (cd : Option ℤ) (a : Bool)
    (h1 : vq ≠ fq) (h2 : vi ≠ fi) (h3 : cd.getD ci ≠ fe) (h4 : vb ≠ fb)
    (h5 : (if a then (1 : ℤ) else 0) ≠ ft) :
    ((generic_slider_float_callback false gui_changed w fq vq).2
        = (if gui_changed then [Effect.guiChanged w (PVal.float fq)] else [])
          ++ [Effect.colorPickerReset, Effect.addHistoryItem]
     ∧ (generic_slider_int_callback false gui_changed w fi vi).2
        = (if gui_changed then [Effect.guiChanged w (PVal.int fi)] else [])
          ++ [Effect.colorPickerReset, Effect.addHistoryItem]
     ∧ (generic_combobox_enum_callback false gui_changed w fe cd ci).2
        = (if gui_changed then [Effect.guiChanged w (PVal.int fe)] else [])
          ++ [Effect.colorPickerReset, Effect.addHistoryItem]
     ∧ (generic_combobox_bool_callback false gui_changed w fb vb).2
        = (if gui_changed then [Effect.guiChanged w (PVal.int fb)] else [])
          ++ [Effect.colorPickerReset, Effect.addHistoryItem]
     ∧ (generic_toggle_callback false gui_changed w ft a).2
        = (if gui_changed then [Effect.guiChanged w (PVal.int ft)] else [])
          ++ [Effect.colorPickerReset, Effect.addHistoryItem])
    ∧ ((generic_slider_float_callback false gui_changed w fq vq).2.count
          Effect.colorPickerReset = 1
       ∧ (generic_slider_float_callback false gui_changed w fq vq).2.count
          Effect.addHistoryItem = 1) := by
  have hfl : (generic_slider_float_callback false gui_changed w fq vq).2
      = process_changed_value gui_changed w (PVal.float fq) := by
    simp [generic_slider_float_callback, h1]
  refine ⟨⟨?_, ?_, ?_, ?_, ?_⟩, ?_, ?_⟩
  · rw [hfl]; rfl
  · simp [generic_slider_int_callback, h2, process_changed_value]
  · cases cd <;> simp_all [generic_combobox_enum_callback, process_changed_value]
  · simp [generic_combobox_bool_callback, h4, process_changed_value]
  · cases a <;> simp_all [generic_toggle_callback, process_changed_value]
  · rw [hfl]; cases gui_changed <;> rfl
  · rw [hfl]; cases gui_changed <;> rfl

/-- Claim C1 witness: the amended effect sequence at a concrete change event
(float slider, hook registered, previous value 0, new value 1). -/
theorem c1_amended_changed_effects_witness :
    (generic_slider_float_callback false true 0 0 1).2
      = [Effect.guiChanged 0 (PVal.float 0), Effect.colorPickerReset,
         Effect.addHistoryItem] := by
  have h := c1_amended_changed_effects true 0 0 1 0 1 0 0 1 0 0 (some 1) true
    (by decide) (by decide) (by decide) (by decide) (by decide)
  simpa using h.1.1

/-!
## Exact characterization of the float-branch exponent (for C4, C7)
-/

/-- Lemma pinning down `Int.log 10` by a power bracketing; used to evaluate the
embedded step rule at concrete ranges. -/
theorem int_log_eq {n : ℤ} {r : ℚ} (hr : 0 < r) (h1 : (10 : ℚ) ^ n ≤ r)
    (h2 : r < (10 : ℚ) ^ (n + 1)) : Int.log 10 r = n := by
  have ha := (Int.zpow_le_iff_le_log (b := 10) (R := ℚ) (by norm_num) hr).mp
    (by simpa using h1)
  have hb := (Int.lt_zpow_iff_log_lt (b := 10) (R := ℚ) (by norm_num) hr).mp
    (by simpa using h2)
  omega

/-- The exponent `e = floorLog10AddTenth q` is characterized by
`10^(10e-1) ≤ q^10 < 10^(10e+9)`, the rational bracketing of
`e = ⌊log₁₀ q + 1/10⌋`. -/
theorem floorLog10AddTenth_bracket (q : ℚ) (hq : 0 < q) :
    (10 : ℚ) ^ (10 * floorLog10AddTenth q - 1) ≤ q ^ 10
    ∧ q ^ 10 < (10 : ℚ) ^ (10 * floorLog10AddTenth q + 9) := by
  have hq10 : (0 : ℚ) < q ^ 10 := by positivity
  have h1 : (10 : ℚ) ^ Int.log 10 (q ^ 10) ≤ q ^ 10 := by
    have := Int.zpow_log_le_self (b := 10) (R := ℚ) (by norm_num) hq10
    simpa using this
  have h2 : q ^ 10 < (10 : ℚ) ^ (Int.log 10 (q ^ 10) + 1) := by
    have := Int.lt_zpow_succ_log_self (b := 10) (R := ℚ) (by norm_num) (q ^ 10)
    simpa using this
  have hmod := Int.fmod_add_fdiv (Int.log 10 (q ^ 10) + 1) 10
  have hmn : 0 ≤ (Int.log 10 (q ^ 10) + 1).fmod 10 :=
    Int.fmod_nonneg' _ (by norm_num)
  have hmx : (Int.log 10 (q ^ 10) + 1).fmod 10 < 10 :=
    Int.fmod_lt_of_pos _ (by norm_num)
  constructor
  · refine le_trans (zpow_le_zpow_right₀ (by norm_num) ?_) h1
    unfold floorLog10AddTenth
    omega
  · refine lt_of_lt_of_le h2 (zpow_le_zpow_right₀ (by norm_num) ?_)
    unfold floorLog10AddTenth
    omega

/-- Sanity bridge: on positive rationals, `floorLog10AddTenth` is exactly
the exact-real reading `⌊log₁₀ q + 1/10⌋` of the source's
`floorf(log10f(step) + .1)`. -/
theorem floorLog10AddTenth_eq_floor_logb (q : ℚ) (hq : 0 < q) :
    floorLog10AddTenth q = ⌊Real.logb 10 (q : ℝ) + 1 / 10⌋ := by
  have hqR : (0 : ℝ) < (q : ℝ) := by exact_mod_cast hq
  obtain ⟨hl, hr⟩ := floorLog10AddTenth_bracket q hq
  have hlR : (10 : ℝ) ^ (10 * floorLog10AddTenth q - 1) ≤ (q : ℝ) ^ (10 : ℕ) := by
    have : (((10 : ℚ) ^ (10 * floorLog10AddTenth q - 1) : ℚ) : ℝ)
        ≤ ((q ^ 10 : ℚ) : ℝ) := by exact_mod_cast hl
    rwa [Rat.cast_zpow, Rat.cast_ofNat, Rat.cast_pow] at this
  have hrR : (q : ℝ) ^ (10 : ℕ) < (10 : ℝ) ^ (10 * floorLog10AddTenth q + 9) := by
    have : ((q ^ 10 : ℚ) : ℝ)
        < (((10 : ℚ) ^ (10 * floorLog10AddTenth q + 9) : ℚ) : ℝ) := by exact_mod_cast hr
    rwa [Rat.cast_zpow, Rat.cast_ofNat, Rat.cast_pow] at this
  have hpow : Real.logb 10 ((q : ℝ) ^ (10 : ℕ)) = 10 * Real.logb 10 (q : ℝ) := by
    rw [Real.logb_pow]; norm_num
  have hq10R : (0 : ℝ) < (q : ℝ) ^ (10 : ℕ) := by positivity
  have hlb : ((10 * floorLog10AddTenth q - 1 : ℤ) : ℝ)
      ≤ 10 * Real.logb 10 (q : ℝ) := by
    rw [← hpow]
    rw [Real.le_logb_iff_rpow_le (by norm_num) hq10R, Real.rpow_intCast]
    exact hlR
  have hub : 10 * Real.logb 10 (q : ℝ)
      < ((10 * floorLog10AddTenth q + 9 : ℤ) : ℝ) := by
    rw [← hpow]
    by_contra hcon
    push_neg at hcon
    rw [Real.le_logb_iff_rpow_le (by norm_num) hq10R, Real.rpow_intCast] at hcon
    exact absurd hrR (not_lt.mpr hcon)
  symm
  rw [Int.floor_eq_iff]
  push_cast at hlb hub ⊢
  constructor <;> linarith

/-- Sanity bridge: on positive rationals, `log10FracGtHalf q e` decides the
exact-real reading `log₁₀ q - e > 1/2` of the source's
`log10step - fdigits > .5`. -/
theorem log10FracGtHalf_iff_logb (q : ℚ) (e : ℤ) (hq : 0 < q) :
    log10FracGtHalf q e = true ↔ 1 / 2 < Real.logb 10 (q : ℝ) - (e : ℝ) := by
  have hqR : (0 : ℝ) < (q : ℝ) := by exact_mod_cast hq
  have hq2R : (0 : ℝ) < (q : ℝ) ^ (2 : ℕ) := by positivity
  have hpow : Real.logb 10 ((q : ℝ) ^ (2 : ℕ)) = 2 * Real.logb 10 (q : ℝ) := by
    rw [Real.logb_pow]; norm_num
  rw [log10FracGtHalf, decide_eq_true_eq]
  constructor
  · intro h
    have hR : (10 : ℝ) ^ (2 * e + 1) < (q : ℝ) ^ (2 : ℕ) := by
      have : (((10 : ℚ) ^ (2 * e + 1) : ℚ) : ℝ) < ((q ^ 2 : ℚ) : ℝ) := by
        exact_mod_cast h
      rwa [Rat.cast_zpow, Rat.cast_ofNat, Rat.cast_pow] at this
    have h3 : ((2 * e + 1 : ℤ) : ℝ) < Real.logb 10 ((q : ℝ) ^ (2 : ℕ)) := by
      rw [Real.lt_logb_iff_rpow_lt (by norm_num) hq2R, Real.rpow_intCast]
      exact hR
    rw [hpow] at h3
    push_cast at h3
    linarith
  · intro h
    have h2 : ((2 * e + 1 : ℤ) : ℝ) < Real.logb 10 ((q : ℝ) ^ (2 : ℕ)) := by
      rw [hpow]; push_cast; linarith
    have := (Real.lt_logb_iff_rpow_lt (by norm_num) hq2R).mp h2
    rw [Real.rpow_intCast] at this
    have : (((10 : ℚ) ^ (2 * e + 1) : ℚ) : ℝ) < ((q ^ 2 : ℚ) : ℝ) := by
      rw [Rat.cast_zpow, Rat.cast_ofNat, Rat.cast_pow]
      exact this
    exact_mod_cast this


/-!
## Claim C4 (slider step / digit derivation)
-/

/-- Claim C4 counterexample: for the float field `radius` with range
`[0,9]` (`top = 9`), the binder derives step `1/10`: the source floors
`log₁₀ 0.09 + 0.1 ≈ -0.946` to exponent `-1`.  The claim's rule takes
`e = ⌊log₁₀ 0.09⌋ = -2` with fractional part `≈ 0.954 > 0.5` and yields
step `5·10⁻² = 1/20`.  The two disagree at this input. -/
theorem c4_step_rule_counterexample :
    (dt_bauhaus_slider_from_params exampleModule "radius").widget.map
        (fun s => (s.step, s.digits)) = some ((1 / 10 : ℚ), (2 : ℤ))
    ∧ spec_step_digits 0 9 = ((1 / 20 : ℚ), (2 : ℤ))
    ∧ ((1 / 10 : ℚ), (2 : ℤ)) ≠ ((1 / 20 : ℚ), (2 : ℤ)) := by
  have htop : slider_top 0 9 = 9 := by norm_num [slider_top, rmin, rmax, rabs]
  have hL : Int.log 10 (((9 : ℚ) / 100) ^ (10 : ℕ)) = -11 :=
    int_log_eq (by norm_num) (by norm_num) (by norm_num)
  have hfd : floorLog10AddTenth ((9 : ℚ) / 100) = -1 := by
    show (Int.log 10 (((9 : ℚ) / 100) ^ (10 : ℕ)) + 1).fdiv 10 = -1
    rw [hL]; decide
  have hstep : derive_step_digits 0 9 = (1 / 10, 2) := by
    simp only [derive_step_digits, htop, hfd, log10FracGtHalf]
    norm_num
  have hL2 : Int.log 10 ((9 : ℚ) / 100) = -2 :=
    int_log_eq (by norm_num) (by norm_num) (by norm_num)
  refine ⟨?_, ?_, by norm_num⟩
  · simp [dt_bauhaus_slider_from_params, slider_widget_core, exampleModule,
      exF01, exF9, hstep]
  · simp only [spec_step_digits, htop, hL2, log10FracGtHalf]
    norm_num

/-- Claim C4 (amended): for a float field with declared range `[min,max]`
and `top = min(max-min, max(|min|,|max|)) > 0`, the slider binder derives
step 1 and 2 digits when `top ≥ 100`; otherwise it derives them from the
exponent `e = ⌊log₁₀(top/100) + 0.1⌋` — characterized exactly by
`10^(10e-1) ≤ (top/100)^10 < 10^(10e+9)` — as step `10^e`, multiplied by 5
when the fractional part of `log₁₀(top/100)` exceeds `0.5` (equivalently
`(top/100)² > 10^(2e+1)`), with digit count 2 unless `e < -2`, in which
case `-e`.  (The claim's rule floors `log₁₀(top/100)` without the `+0.1`
the source adds.) -/
theorem c4_amended_step_rule (m : IopModule) (param : String) (f : FieldDesc)
    (mn mx : ℚ) (hf : m.get_f param = some f)
    (hspec : f.spec = FieldSpec.float mn mx)
    (h0 : 0 < slider_top mn mx) :
    ∃ s : SliderW,
      (dt_bauhaus_slider_from_params m param).widget = some s
      ∧ (100 ≤ slider_top mn mx → s.step = 1 ∧ s.digits = 2)
      ∧ (slider_top mn mx < 100 → ∃ e : ℤ,
          ((10 : ℚ) ^ (10 * e - 1) ≤ (slider_top mn mx / 100) ^ 10
           ∧ (slider_top mn mx / 100) ^ 10 < (10 : ℚ) ^ (10 * e + 9))
          ∧ s.step = (if (10 : ℚ) ^ (2 * e + 1) < (slider_top mn mx / 100) ^ 2
                      then 5 * (10 : ℚ) ^ e else (10 : ℚ) ^ e)
          ∧ s.digits = (if e < -2 then -e else 2)) := by
  obtain ⟨off, desc, fs⟩ := f
  simp only at hspec
  subst hspec
  have hw : (dt_bauhaus_slider_from_params m param).widget
      = some { minv := mn, maxv := mx, step := (derive_step_digits mn mx).1,
               defval := ((m.get_p param).floatStar).getD 0,
               digits := (derive_step_digits mn mx).2,
               label := gettext desc,
               format := if mn < 0 then
                   some ("%+.0" ++ toString (derive_step_digits mn mx).2 ++ "f")
                 else none,
               handler := some (SliderHandler.floatCB off) } := by
    simp [dt_bauhaus_slider_from_params, slider_widget_core, hf]
  refine ⟨_, hw, ?_, ?_⟩
  · intro h100
    constructor
    · show (derive_step_digits mn mx).1 = 1
      simp [derive_step_digits, h100]
    · show (derive_step_digits mn mx).2 = 2
      simp [derive_step_digits, h100]
  · intro hlt
    have hnot : ¬ (100 ≤ slider_top mn mx) := not_le.mpr hlt
    have hqpos : 0 < slider_top mn mx / 100 := div_pos h0 (by norm_num)
    refine ⟨floorLog10AddTenth (slider_top mn mx / 100),
            floorLog10AddTenth_bracket _ hqpos, ?_, ?_⟩
    · show (derive_step_digits mn mx).1 = _
      simp only [derive_step_digits, hnot, if_false, log10FracGtHalf,
        decide_eq_true_eq]
      split_ifs with h
      · ring
      · rfl
    · show (derive_step_digits mn mx).2 = _
      simp [derive_step_digits, hnot]

/-- Claim C4 witness: the amended rule applied to the float field
`strength` with range `[0,1]` (the spec's worked example: `top = 1`). -/
theorem c4_amended_step_rule_witness :
    (0 : ℚ) < slider_top 0 1
    ∧ (∃ s : SliderW,
        (dt_bauhaus_slider_from_params exampleModule "strength").widget = some s
        ∧ (100 ≤ slider_top 0 1 → s.step = 1 ∧ s.digits = 2)
        ∧ (slider_top 0 1 < 100 → ∃ e : ℤ,
            ((10 : ℚ) ^ (10 * e - 1) ≤ (slider_top 0 1 / 100) ^ 10
             ∧ (slider_top 0 1 / 100) ^ 10 < (10 : ℚ) ^ (10 * e + 9))
            ∧ s.step = (if (10 : ℚ) ^ (2 * e + 1) < (slider_top 0 1 / 100) ^ 2
                        then 5 * (10 : ℚ) ^ e else (10 : ℚ) ^ e)
            ∧ s.digits = (if e < -2 then -e else 2))) :=
  ⟨by norm_num [slider_top, rmin, rmax, rabs],
   c4_amended_step_rule exampleModule "strength" exF01 0 1 rfl rfl
     (by norm_num [slider_top, rmin, rmax, rabs])⟩

/-!
## Claim C5 (int slider: default read through a float-typed dereference)
-/

/-- Claim C5, code evaluated at the failing input: binding the int field
`iterations` (range `[0,10]`, current value 5) yields a slider over
`[0,10]` with step 1 and 0 digits — but with default 0, not the field's
current value 5.  The source reads the default through `*(float*)` on the
int field (imageop_gui.c:168): the bit pattern of the int 5 decodes as the
binary32 denormal `5·2⁻¹⁴⁹`, which truncates to 0. -/
theorem c5_int_default_read_as_float :
    (dt_bauhaus_slider_from_params exampleModule "iterations").widget.map
        (fun s => (s.minv, s.maxv, s.step, s.digits, s.defval))
      = some ((0 : ℚ), (10 : ℚ), (1 : ℚ), (0 : ℤ), (0 : ℚ))
    ∧ exampleModule.get_p "iterations" = PVal.int 5
    ∧ (0 : ℚ) ≠ (5 : ℚ) := by
  have h5 : intToBits32 5 = 5 := by
    norm_num [intToBits32]
    rfl
  have hb : float32BitsToRat 5 = some (5 * ((2 : ℚ) ^ (149 : ℕ))⁻¹) := by
    norm_num [float32BitsToRat]
  have hread : ((PVal.int 5).floatStar).getD 0 = 5 * ((2 : ℚ) ^ (149 : ℕ))⁻¹ := by
    show (float32BitsToRat (intToBits32 5)).getD 0 = _
    rw [h5, hb]
    rfl
  have hct : ctrunc (5 * ((2 : ℚ) ^ (149 : ℕ))⁻¹) = 0 := by
    rw [ctrunc, if_pos (by positivity), Int.floor_eq_iff]
    constructor <;> norm_num
  refine ⟨?_, by rfl, by norm_num⟩
  simp [dt_bauhaus_slider_from_params, slider_widget_core, exampleModule,
    exF01, exF9, exF60, exFInt, hread, hct]

/-!
## Claim C6 (mismatched descriptor types)
-/

/-- Claim C6 counterexample: the bool field `clip` has a descriptor, and
passing it to the slider binder yields a NULL control — not the non-null
placeholder the claim promises.  (The source's placeholder branch,
imageop_gui.c:177-185, runs only when the descriptor lookup itself fails;
with a present-but-mismatched descriptor the slider stays NULL and is then
passed to `dt_bauhaus_widget_set_label`.) -/
theorem c6_slider_mismatch_counterexample :
    exampleModule.get_f "clip" = some exFBool
    ∧ (dt_bauhaus_slider_from_params exampleModule "clip").widget = none := by
  refine ⟨by rfl, ?_⟩
  simp [dt_bauhaus_slider_from_params, slider_widget_core, exampleModule,
    exF01, exF9, exF60, exFInt, exFBool]

/-- Claim C6 (amended): for the choice-list and toggle binders, a field
whose descriptor exists but has an unsupported type — and likewise an
unknown name — yields a non-null placeholder control labeled with the
explicit mismatch message and no field binding.  The slider binder builds
such a placeholder only when the descriptor lookup fails; when a descriptor
exists whose type is neither float nor int, the slider binder performs no
field binding and returns a NULL control instead of a placeholder. -/
theorem c6_amended_mismatch_placeholders (m : IopModule) (param : String) :
    (m.get_f param = none →
      (dt_bauhaus_slider_from_params m param).widget
        = some { minv := 0, maxv := 1, step := 1 / 10, defval := 0, digits := 3,
                 label := "\x27" ++ param
                   ++ "\x27 is not a float/int/slider parameter",
                 format := none, handler := none })
    ∧ (∀ f : FieldDesc, m.get_f param = some f →
        (∀ a b : ℚ, f.spec ≠ FieldSpec.float a b) →
        (∀ a b : ℤ, f.spec ≠ FieldSpec.int a b) →
        (dt_bauhaus_slider_from_params m param).widget = none)
    ∧ (∀ f : FieldDesc, m.get_f param = some f →
        (∀ a b : ℤ, f.spec ≠ FieldSpec.int a b) →
        (∀ a b : ℕ, f.spec ≠ FieldSpec.uint a b) →
        f.spec ≠ FieldSpec.bool →
        (∀ vs, f.spec ≠ FieldSpec.enum vs) →
        (dt_bauhaus_combobox_from_params m param).widget
          = { label := "\x27" ++ param
                ++ "\x27 is not an enum/int/bool/combobox parameter",
              entries := [], handler := none })
    ∧ (m.get_f param = none →
        (dt_bauhaus_combobox_from_params m param).widget
          = { label := "\x27" ++ param
                ++ "\x27 is not an enum/int/bool/combobox parameter",
              entries := [], handler := none })
    ∧ (∀ f : FieldDesc, m.get_f param = some f → f.spec ≠ FieldSpec.bool →
        (dt_bauhaus_toggle_from_params m param).widget
          = { label := "\x27" ++ param
                ++ "\x27 is not a bool/togglebutton parameter",
              handler := none })
    ∧ (m.get_f param = none →
        (dt_bauhaus_toggle_from_params m param).widget
          = { label := "\x27" ++ param
                ++ "\x27 is not a bool/togglebutton parameter",
              handler := none }) := by
  refine ⟨?_, ?_, ?_, ?_, ?_, ?_⟩
  · intro hn
    simp [dt_bauhaus_slider_from_params, slider_widget_core, hn]
  · rintro ⟨off, desc, fs⟩ hf hnf hni
    cases fs with
    | float a b => exact absurd rfl (hnf a b)
    | int a b => exact absurd rfl (hni a b)
    | _ => simp [dt_bauhaus_slider_from_params, slider_widget_core, hf]
  · rintro ⟨off, desc, fs⟩ hf hni hnu hnb hne
    cases fs with
    | int a b => exact absurd rfl (hni a b)
    | uint a b => exact absurd rfl (hnu a b)
    | bool => exact absurd rfl hnb
    | enum vs => exact absurd rfl (hne vs)
    | _ => simp [dt_bauhaus_combobox_from_params, combobox_widget_core, hf]
  · intro hn
    simp [dt_bauhaus_combobox_from_params, combobox_widget_core, hn]
  · rintro ⟨off, desc, fs⟩ hf hnb
    cases fs with
    | bool => exact absurd rfl hnb
    | _ => simp [dt_bauhaus_toggle_from_params, toggle_widget_core, hf]
  · intro hn
    simp [dt_bauhaus_toggle_from_params, toggle_widget_core, hn]

/-- Claim C6 witness: the three binders at an unknown parameter name of the
concrete module (descriptor lookup fails) produce the labeled placeholder
toggle. -/
theorem c6_amended_mismatch_placeholders_witness :
    (dt_bauhaus_toggle_from_params exampleModule "unknown").widget
      = { label := "\x27unknown\x27 is not a bool/togglebutton parameter",
          handler := none } := by
  have h := c6_amended_mismatch_placeholders exampleModule "unknown"
  exact h.2.2.2.2.2 rfl

/-!
## Claim C7 (ranges spanning at least 100)
-/

/-- Claim C7 counterexample: the float field `rotation` has
`max - min = 120 ≥ 100`, yet the binder derives step `1/2`, not 1: the
source compares 100 against `top = min(max-min, max(|min|,|max|)) = 60`,
not against `max - min`. -/
theorem c7_range_step_counterexample :
    (100 : ℚ) ≤ 60 - (-60)
    ∧ (dt_bauhaus_slider_from_params exampleModule "rotation").widget.map
        (fun s => s.step) = some (1 / 2 : ℚ)
    ∧ (1 / 2 : ℚ) ≠ 1 := by
  have htop : slider_top (-60) 60 = 60 := by
    norm_num [slider_top, rmin, rmax, rabs]
  have hL : Int.log 10 (((60 : ℚ) / 100) ^ (10 : ℕ)) = -3 :=
    int_log_eq (by norm_num) (by norm_num) (by norm_num)
  have hfd : floorLog10AddTenth ((60 : ℚ) / 100) = -1 := by
    show (Int.log 10 (((60 : ℚ) / 100) ^ (10 : ℕ)) + 1).fdiv 10 = -1
    rw [hL]; decide
  have hstep : derive_step_digits (-60) 60 = (1 / 2, 2) := by
    simp only [derive_step_digits, htop, hfd, log10FracGtHalf]
    norm_num
  refine ⟨by norm_num, ?_, by norm_num⟩
  simp [dt_bauhaus_slider_from_params, slider_widget_core, exampleModule,
    exF01, exF9, exF60, hstep]

/-- Claim C7 (amended): the binder's derived step is 1 for every float
field whose `top = min(max-min, max(|min|,|max|))` is at least 100 — the
source's actual guard — and for every int field. -/
theorem c7_amended_step_one (m : IopModule) (param : String) (f : FieldDesc)
    (hf : m.get_f param = some f) :
    (∀ mn mx : ℚ, f.spec = FieldSpec.float mn mx → 100 ≤ slider_top mn mx →
      ∃ s : SliderW, (dt_bauhaus_slider_from_params m param).widget = some s
        ∧ s.step = 1)
    ∧ (∀ mn mx : ℤ, f.spec = FieldSpec.int mn mx →
      ∃ s : SliderW, (dt_bauhaus_slider_from_params m param).widget = some s
        ∧ s.step = 1) := by
  obtain ⟨off, desc, fs⟩ := f
  constructor
  · intro mn mx hspec h100
    simp only at hspec
    subst hspec
    have hw : (dt_bauhaus_slider_from_params m param).widget
        = some { minv := mn, maxv := mx, step := (derive_step_digits mn mx).1,
                 defval := ((m.get_p param).floatStar).getD 0,
                 digits := (derive_step_digits mn mx).2,
                 label := gettext desc,
                 format := if mn < 0 then
                     some ("%+.0" ++ toString (derive_step_digits mn mx).2 ++ "f")
                   else none,
                 handler := some (SliderHandler.floatCB off) } := by
      simp [dt_bauhaus_slider_from_params, slider_widget_core, hf]
    refine ⟨_, hw, ?_⟩
    show (derive_step_digits mn mx).1 = 1
    simp [derive_step_digits, h100]
  · intro mn mx hspec
    simp only at hspec
    subst hspec
    have hw : (dt_bauhaus_slider_from_params m param).widget
        = some { minv := (mn : ℚ), maxv := (mx : ℚ), step := 1,
                 defval := ((ctrunc (((m.get_p param).floatStar).getD 0) : ℤ) : ℚ),
                 digits := 0, label := gettext desc, format := none,
                 handler := some (SliderHandler.intCB off) } := by
      simp [dt_bauhaus_slider_from_params, slider_widget_core, hf]
    exact ⟨_, hw, rfl⟩

/-- Claim C7 witness: the float field `exposure` with range `[-180,180]`
(`top = 180`) receives step 1. -/
theorem c7_amended_step_one_witness :
    ∃ s : SliderW,
      (dt_bauhaus_slider_from_params exampleModule "exposure").widget = some s
      ∧ s.step = 1 := by
  have h := c7_amended_step_one exampleModule "exposure" exF180 rfl
  exact h.1 (-180) 180 rfl (by norm_num [slider_top, rmin, rmax, rabs])

/-!
## Claim C8 (combobox population and enum value resolution)
-/

/-- Claim C8: the choice-list binder populates a bool field's combobox with
exactly the two localized choices "no" (index 0) then "yes" (index 1),
bound through the boolean change handler; it populates an enum field's
combobox with one choice per enum-table entry in declared order, each
carrying that entry's integer value as auxiliary data and its localized
description as label, bound through the enum change handler — and that
handler resolves the new value through the auxiliary data when present,
falling back to the plain selection index otherwise. -/
theorem c8_combobox_population (m : IopModule) (param : String)
    (f : FieldDesc) (hf : m.get_f param = some f) :
    (f.spec = FieldSpec.bool →
      (dt_bauhaus_combobox_from_params m param).widget
        = { label := gettext f.description,
            entries := [{ label := gettext "no", data := none },
                        { label := gettext "yes", data := none }],
            handler := some (ComboHandler.boolCB f.offset) })
    ∧ (∀ vs : List EnumTuple, f.spec = FieldSpec.enum vs →
      (dt_bauhaus_combobox_from_params m param).widget
        = { label := gettext f.description,
            entries := vs.map (fun t =>
              { label := gettext t.description, data := some t.value }),
            handler := some (ComboHandler.enumCB f.offset) })
    ∧ (∀ (g : Bool) (w : Nat) (fi d i : ℤ),
        (generic_combobox_enum_callback false g w fi (some d) i).1 = d)
    ∧ (∀ (g : Bool) (w : Nat) (fi i : ℤ),
        (generic_combobox_enum_callback false g w fi none i).1 = i) := by
  obtain ⟨off, desc, fs⟩ := f
  refine ⟨?_, ?_, ?_, ?_⟩
  · intro hspec
    simp only at hspec
    subst hspec
    simp [dt_bauhaus_combobox_from_params, combobox_widget_core, hf]
  · intro vs hspec
    simp only at hspec
    subst hspec
    simp [dt_bauhaus_combobox_from_params, combobox_widget_core, hf]
  · intro g w fi d i
    show (if (d : ℤ) ≠ fi then (d, process_changed_value g w (PVal.int fi))
          else (d, [])).1 = d
    split <;> rfl
  · intro g w fi i
    show (if (i : ℤ) ≠ fi then (i, process_changed_value g w (PVal.int fi))
          else (i, [])).1 = i
    split <;> rfl

/-- Claim C8 witness: the enum field `mode` yields the two table entries in
order, carrying values 0 and 5 (the second differing from its index), bound
through the enum handler at the field's offset. -/
theorem c8_combobox_population_witness :
    (dt_bauhaus_combobox_from_params exampleModule "mode").widget
      = { label := "mode",
          entries := [{ label := "linear", data := some 0 },
                      { label := "logarithmic", data := some 5 }],
          handler := some (ComboHandler.enumCB 20) } := by
  have h := c8_combobox_population exampleModule "mode" exFEnum rfl
  simpa [exFEnum, gettext] using h.2.1 _ rfl

/-!
## Claim C9 (lazy container creation and appends)
-/

/-- Binder calls leave the introspection lookup unchanged. -/
theorem applyCall_get_f (m : IopModule) (c : BinderCall) :
    (applyCall m c).get_f = m.get_f := by
  cases c <;> rfl

/-- Binder calls leave the parameter accessor unchanged. -/
theorem applyCall_get_p (m : IopModule) (c : BinderCall) :
    (applyCall m c).get_p = m.get_p := by
  cases c <;> rfl

/-- One binder call makes the container hold the previous children (none
when the container did not exist yet) followed by the packed control, when
one was built. -/
theorem applyCall_widget (m : IopModule) (c : BinderCall) :
    (applyCall m c).widget
      = some (m.widget.getD [] ++ (builtWidget m c).toList) := by
  cases c <;> rfl

/-- The control a call builds depends only on the introspection lookup and
the parameter accessor, which binder calls never change. -/
theorem builtWidget_applyCall (m : IopModule) (c c' : BinderCall) :
    builtWidget (applyCall m c) c' = builtWidget m c' := by
  cases c <;> cases c' <;> rfl

/-- Claim C9: over any sequence of binder calls, the module's UI container
is created exactly by the first call when absent, is never recreated
afterwards, and each call appends the control it built (packing skips the
NULL control of a mismatched slider call) — so the final container holds
the original children followed by the built controls in call order. -/
theorem c9_container_lazy_append (m : IopModule) (cs : List BinderCall) :
    (runCalls m cs).widget
      = if cs = [] then m.widget
        else some (m.widget.getD [] ++ cs.filterMap (builtWidget m)) := by
  induction cs generalizing m with
  | nil => rfl
  | cons c cs ih =>
    have hrun : runCalls m (c :: cs) = runCalls (applyCall m c) cs := rfl
    have hbw : cs.filterMap (builtWidget (applyCall m c))
        = cs.filterMap (builtWidget m) := by
      have : builtWidget (applyCall m c) = builtWidget m :=
        funext (builtWidget_applyCall m c)
      rw [this]
    rw [hrun, ih (applyCall m c), hbw, applyCall_widget]
    cases cs with
    | nil =>
      simp only [if_pos rfl, List.filterMap_cons]
      cases builtWidget m c <;> simp
    | cons c' cs' =>
      simp only [if_neg (List.cons_ne_nil c' cs'),
        if_neg (List.cons_ne_nil c (c' :: cs')), Option.getD_some,
        List.filterMap_cons]
      cases builtWidget m c <;> simp

/-- Claim C9 witness: running a slider, a combobox and a toggle call on the
concrete module (whose container starts absent) creates the container once
and leaves exactly the three controls, in call order. -/
theorem c9_container_lazy_append_witness :
    (runCalls exampleModule
        [BinderCall.slider "strength", BinderCall.combo "mode",
         BinderCall.toggle "clip"]).widget
      = some ([BinderCall.slider "strength", BinderCall.combo "mode",
               BinderCall.toggle "clip"].filterMap
                (builtWidget exampleModule)) := by
  have h := c9_container_lazy_append exampleModule
    [BinderCall.slider "strength", BinderCall.combo "mode",
     BinderCall.toggle "clip"]
  simpa [exampleModule] using h

/-!
## Claim C10 (binders only read the parameter block)
-/

/-- Claim C10: every binder call, for every parameter name, leaves the
parameter block (the accessor `get_p`), the introspection lookup and the
registered hook unchanged, and emits no collaborator effect — no history
commit and no color-picker reset; those arise only inside the change
handlers. -/
theorem c10_binders_read_only (m : IopModule) (param : String) :
    ((dt_bauhaus_slider_from_params m param).effects = []
      ∧ (dt_bauhaus_slider_from_params m param).module.get_p = m.get_p
      ∧ (dt_bauhaus_slider_from_params m param).module.get_f = m.get_f
      ∧ (dt_bauhaus_slider_from_params m param).module.gui_changed
          = m.gui_changed)
    ∧ ((dt_bauhaus_combobox_from_params m param).effects = []
      ∧ (dt_bauhaus_combobox_from_params m param).module.get_p = m.get_p
      ∧ (dt_bauhaus_combobox_from_params m param).module.get_f = m.get_f
      ∧ (dt_bauhaus_combobox_from_params m param).module.gui_changed
          = m.gui_changed)
    ∧ ((dt_bauhaus_toggle_from_params m param).effects = []
      ∧ (dt_bauhaus_toggle_from_params m param).module.get_p = m.get_p
      ∧ (dt_bauhaus_toggle_from_params m param).module.get_f = m.get_f
      ∧ (dt_bauhaus_toggle_from_params m param).module.gui_changed
          = m.gui_changed) :=
  ⟨⟨rfl, rfl, rfl, rfl⟩, ⟨rfl, rfl, rfl, rfl⟩, ⟨rfl, rfl, rfl, rfl⟩⟩
